import Mathlib

/-!
Shallow embedding of the AI-Data-Agent frontend (React/TypeScript) in Lean 4.

Embedded source files:
- src/frontend/src/components/Visualization.tsx  (inferKeys, key resolution, renderChart)
- src/frontend/src/components/FileUpload.tsx     (FileUpload.onDrop, Chat.handleSubmit)
- src/frontend/src/contexts/AppContext.tsx       (appReducer, State, Action)

JavaScript record values are modelled by `JValue`; a record is an ordered
association list of field name and value, matching object key order.
JavaScript truthiness of optional strings (undefined and the empty string are
falsy) is modelled by `truthyOptStr`, and the `a || b` idiom by `jsOr`.
The impure clock (Date.now) is passed explicitly as a `Nat` parameter.
-/

namespace AIDataAgent

/-- A JavaScript-style dynamic value as it appears in backend result rows. -/
inductive JValue where
  | str (s : String)
  | num (n : Int)
  | bool (b : Bool)
  | null
deriving DecidableEq

/-- A result row: ordered list of field name and value (JS object key order). -/
abbrev Rec := List (String × JValue)

/-- Object.keys of a record: its field names in order. -/
def recordKeys (r : Rec) : List String := r.map Prod.fst

/-- Field lookup, entry[k]: some value when the key is present, none otherwise. -/
def lookupField (r : Rec) (k : String) : Option JValue :=
  (r.find? fun p => p.fst == k).map Prod.snd

/-- JS truthiness of a possibly-undefined string: undefined and the empty string are falsy. -/
def truthyOptStr : Option String → Bool
  | none => false
  | some s => !(s == "")

/-- The JS idiom a or-else b on possibly-undefined strings: a when truthy, otherwise b. -/
def jsOr (a b : Option String) : Option String :=
  if truthyOptStr a then a else b

/-- String interpolation of a possibly-undefined value: undefined prints as the word undefined. -/
def jsTemplateOpt : Option String → String
  | none => "undefined"
  | some s => s

/-- Stringification of a JValue as JS template interpolation would produce. -/
def jsToString : JValue → String
  | .str s => s
  | .num n => toString n
  | .bool b => if b then "true" else "false"
  | .null => "null"

/-- JS Math.round on a rational: floor of the value plus one half. -/
def jsMathRound (q : ℚ) : Int := Int.floor (q + 1/2)

/-- ASCII lower-casing of one character, as JS toLowerCase acts on ASCII input. -/
def jsLowerChar (c : Char) : Char :=
  if 65 ≤ c.toNat ∧ c.toNat ≤ 90 then Char.ofNat (c.toNat + 32) else c

/-- Embedding of JS String.prototype.toLowerCase restricted to ASCII, written as a
structural map over the character list so that it evaluates by kernel reduction. -/
def jsToLower (s : String) : String := String.mk (s.data.map jsLowerChar)

/-- Whitespace as JS trim removes it (space, tab, newline, carriage return). -/
def jsIsWhitespace (c : Char) : Bool :=
  c == ' ' || c == '\t' || c == '\n' || c == '\r'

/-- Embedding of JS String.prototype.trim, written structurally over the character list. -/
def jsTrim (s : String) : String :=
  String.mk (((s.data.dropWhile jsIsWhitespace).reverse.dropWhile jsIsWhitespace).reverse)

/-- Embedding of Visualization.tsx inferKeys: the inferred key hints taken from the first record. -/
structure InferredKeys where
  inferredXAxisKey : Option String
  inferredYAxisKey : Option String
  inferredPieKey : Option String
  inferredPieNameKey : Option String
deriving DecidableEq

/-- Visualization.tsx lines 47-63: keys[0] and keys[1] of the first data object,
or the literal fallbacks name and value when the data array is empty. -/
def inferKeys (data : List Rec) : InferredKeys :=
  match data with
  | [] =>
      { inferredXAxisKey := some "name"
        inferredYAxisKey := some "value"
        inferredPieKey := some "value"
        inferredPieNameKey := some "name" }
  | r :: _ =>
      { inferredXAxisKey := (recordKeys r).get? 0
        inferredYAxisKey := (recordKeys r).get? 1
        inferredPieKey := (recordKeys r).get? 0
        inferredPieNameKey := (recordKeys r).get? 1 }

/-- Props of the Visualization component. The type prop is kept as a raw string
because the value Chat passes at runtime is an arbitrary lower-cased backend string. -/
structure VisualizationProps where
  type : String
  data : List Rec
  suggestion : String
  xAxisKey : Option String
  yAxisKey : Option String
  pieKey : Option String
  pieNameKey : Option String
deriving DecidableEq

/-- Visualization.tsx lines 65-70: the four resolved keys, each the prop when
truthy, otherwise the inferred key from the first record. -/
def resolveKeys (p : VisualizationProps) : Option String × Option String × Option String × Option String :=
  let inferred := inferKeys p.data
  (jsOr p.xAxisKey inferred.inferredXAxisKey,
   jsOr p.yAxisKey inferred.inferredYAxisKey,
   jsOr p.pieKey inferred.inferredPieKey,
   jsOr p.pieNameKey inferred.inferredPieNameKey)

/-- Outcome of rendering: which branch of renderChart ran and with which keys and data. -/
inductive RenderResult where
  | noData
  | barChart (xKey yKey : Option String) (data : List Rec)
  | lineChart (xKey yKey : Option String) (data : List Rec)
  | pieChart (valueKey nameKey : Option String) (data : List Rec)
  | tableView (columns : List String) (rows : List Rec)
  | unsupported
deriving DecidableEq

/-- Embedding of the Visualization component body (Visualization.tsx lines 38-207):
empty data short-circuits to the no-data placeholder; otherwise the four keys are
resolved and renderChart switches exactly on the type string, with a default
branch for unsupported types. -/
def Visualization (p : VisualizationProps) : RenderResult :=
  if p.data.isEmpty then .noData
  else
    let rk := resolveKeys p
    match p.type with
    | "bar" => .barChart rk.1 rk.2.1 p.data
    | "line" => .lineChart rk.1 rk.2.1 p.data
    | "pie" => .pieChart rk.2.2.1 rk.2.2.2 p.data
    | "table" => .tableView (recordKeys (p.data.headD [])) p.data
    | _ => .unsupported

/-- Visualization.tsx lines 143-149, the pie slice label callback: the entry value
under the resolved name key (nullish-coalesced to the empty string), a space, then
Math.round of percent times 100 (0 when percent is not a number) and a percent sign. -/
def pieSliceLabel (entry : Rec) (nameKey : Option String) (percent : Option ℚ) : String :=
  let nameStr :=
    match nameKey with
    | none => ""
    | some k =>
      match lookupField entry k with
      | none => ""
      | some .null => ""
      | some v => jsToString v
  let pct : Int :=
    match percent with
    | some q => jsMathRound (q * 100)
    | none => 0
  nameStr ++ " " ++ toString pct ++ "%"

/-- Backend visualization_suggestion (External Interfaces schema; fields optional). -/
structure Suggestion where
  chart_type : Option String
  x_axis : Option String
  y_axis : Option String
deriving DecidableEq

/-- Backend response to POST query (FileUpload.tsx line 177 destructuring). -/
structure QueryResponse where
  natural_language_answer : String
  query_result_data : Option (List Rec)
  visualization_suggestion : Option Suggestion
deriving DecidableEq

/-- The visualization payload a Chat message carries (AppContext.tsx lines 9-18);
the four key fields are optional and Chat never sets them. -/
structure VizSpec where
  vtype : String
  data : List Rec
  suggestion : String
  xAxisKey : Option String
  yAxisKey : Option String
  pieKey : Option String
  pieNameKey : Option String
deriving DecidableEq

/-- FileUpload.tsx line 184: chart_type optionally lower-cased, or-else the literal table. -/
def normalizeChartType : Option String → String
  | none => "table"
  | some s => if jsToLower s == "" then "table" else jsToLower s

/-- FileUpload.tsx line 186: the template string naming the chart type and axes. -/
def suggestionText (sug : Suggestion) : String :=
  jsTemplateOpt sug.chart_type ++ " chart showing " ++ jsTemplateOpt sug.x_axis ++ " vs " ++
    (if truthyOptStr sug.y_axis then jsTemplateOpt sug.y_axis else "values")

/-- FileUpload.tsx lines 183-187: the visualization object attached to the AI message,
present only when both query_result_data and visualization_suggestion are present;
no axis key fields are ever set. -/
def responseViz (r : QueryResponse) : Option VizSpec :=
  match r.query_result_data, r.visualization_suggestion with
  | some d, some sug =>
      some { vtype := normalizeChartType sug.chart_type
             data := d
             suggestion := suggestionText sug
             xAxisKey := none
             yAxisKey := none
             pieKey := none
             pieNameKey := none }
  | _, _ => none

/-- FileUpload.tsx lines 269-273: Chat renders a message visualization passing only
the type, data and suggestion props; the four key props are omitted (undefined). -/
def chatVisualizationProps (v : VizSpec) : VisualizationProps :=
  { type := v.vtype
    data := v.data
    suggestion := v.suggestion
    xAxisKey := none
    yAxisKey := none
    pieKey := none
    pieNameKey := none }

/-- Render of a message visualization through the Chat component. -/
def renderMessageViz (v : VizSpec) : RenderResult :=
  Visualization (chatVisualizationProps v)

/-- Full pipeline from a query response to the rendered chart, when a visualization exists. -/
def chatRender (r : QueryResponse) : Option RenderResult :=
  (responseViz r).map renderMessageViz

/-- Screen state of the app (AppContext.tsx line 3). -/
inductive AppState where
  | upload
  | loading
  | chat
deriving DecidableEq

/-- A conversation message (AppContext.tsx lines 5-20); type is the string user or ai. -/
structure Message where
  id : String
  type : String
  content : String
  visualization : Option VizSpec
  timestamp : Nat
deriving DecidableEq

/-- The argument of addMessage: a message without id and timestamp. -/
structure MessagePayload where
  type : String
  content : String
  visualization : Option VizSpec
deriving DecidableEq

/-- The reducer state (AppContext.tsx lines 41-46). -/
structure State where
  appState : AppState
  uploadId : Option String
  messages : List Message
  isProcessing : Bool
deriving DecidableEq

/-- The reducer actions (AppContext.tsx lines 36-39), one constructor per action type. -/
inductive Action where
  | setStateAct (s : AppState)
  | setUploadIdAct (uid : String)
  | addMessageAct (payload : MessagePayload)
  | setProcessingAct (b : Bool)
  | clearMessagesAct
deriving DecidableEq

/-- AppContext.tsx lines 60-63: the stored message is the payload plus a fresh id
(Date.now as a string) and timestamp; the clock is passed explicitly. -/
def payloadToMessage (now : Nat) (p : MessagePayload) : Message :=
  { id := toString now
    type := p.type
    content := p.content
    visualization := p.visualization
    timestamp := now }

/-- Embedding of appReducer (AppContext.tsx lines 48-73). -/
def appReducer (now : Nat) (state : State) (action : Action) : State :=
  match action with
  | .setStateAct s => { state with appState := s }
  | .setUploadIdAct uid => { state with uploadId := some uid }
  | .addMessageAct payload =>
      { state with messages := state.messages ++ [payloadToMessage now payload] }
  | .setProcessingAct b => { state with isProcessing := b }
  | .clearMessagesAct => { state with messages := [] }

/-- AppContext.tsx lines 75-80: the initial state. -/
def initialState : State :=
  { appState := .upload, uploadId := none, messages := [], isProcessing := false }

/-- Outcome of the upload POST: ok carries the parsed body field upload_id
(absent when the 2xx body lacks it); err is a thrown network error or non-2xx. -/
inductive UploadOutcome where
  | ok (upload_id : Option String)
  | err
deriving DecidableEq

/-- Embedding of FileUpload.onDrop (FileUpload.tsx lines 10-35): no-op without a file;
otherwise set screen to loading, then on a truthy upload_id store it and go to chat,
on a thrown error revert to upload, and otherwise leave the state as it stands. -/
def onDrop (state : State) (acceptedFiles : List String) (outcome : UploadOutcome) : State :=
  match acceptedFiles with
  | [] => state
  | _ :: _ =>
    let s1 := appReducer 0 state (.setStateAct .loading)
    match outcome with
    | .err => appReducer 0 s1 (.setStateAct .upload)
    | .ok uid =>
      if truthyOptStr uid then
        let s2 := appReducer 0 s1 (.setUploadIdAct (uid.getD ""))
        appReducer 0 s2 (.setStateAct .chat)
      else s1

/-- Outcome of the query POST: a parsed response or a thrown error. -/
inductive QueryOutcome where
  | ok (r : QueryResponse)
  | err
deriving DecidableEq

/-- Result of Chat.handleSubmit: the context state, the local input value, and
whether a request was actually issued. -/
structure SubmitResult where
  ctx : State
  inputValue : String
  requestIssued : Bool
deriving DecidableEq

/-- The generic apology message content (FileUpload.tsx line 193). -/
def apologyText : String :=
  "Sorry, I encountered an error processing your request. Please try again."

/-- Embedding of Chat.handleSubmit (FileUpload.tsx lines 157-198): guard on empty
trimmed input, missing upload id or busy flag; otherwise clear the input, set busy,
append the user message, issue the request, append the AI answer with its optional
visualization on success or the apology on failure, and finally clear busy.
The two clock reads are passed as n1 and n2. -/
def handleSubmit (ctx : State) (inputValue : String) (outcome : QueryOutcome)
    (n1 n2 : Nat) : SubmitResult :=
  if jsTrim inputValue == "" || !truthyOptStr ctx.uploadId || ctx.isProcessing then
    { ctx := ctx, inputValue := inputValue, requestIssued := false }
  else
    let question := jsTrim inputValue
    let s1 := appReducer n1 ctx (.setProcessingAct true)
    let s2 := appReducer n1 s1
      (.addMessageAct { type := "user", content := question, visualization := none })
    let s3 :=
      match outcome with
      | .ok r => appReducer n2 s2
          (.addMessageAct { type := "ai", content := r.natural_language_answer,
                            visualization := responseViz r })
      | .err => appReducer n2 s2
          (.addMessageAct { type := "ai", content := apologyText, visualization := none })
    let s4 := appReducer n2 s3 (.setProcessingAct false)
    { ctx := s4, inputValue := "", requestIssued := true }

/-- Modelled from the spec for comparison: the first record key whose first-row
value is textual, the x-axis fallback the spec describes. -/
def specFirstTextualKey (r : Rec) : Option String :=
  (r.find? fun p => match p.snd with | .str _ => true | _ => false).map Prod.fst

/-- The Visualization props as the chat flow passes them for a given type string and
data: only type, data and suggestion are supplied, the four key props are omitted. -/
def chatProps (t : String) (d : List Rec) : VisualizationProps :=
  { type := t
    data := d
    suggestion := ""
    xAxisKey := none
    yAxisKey := none
    pieKey := none
    pieNameKey := none }

/-- C1 counterexample: the backend string Horizontal Bar is only lower-cased, not
matched by substring containment, so it resolves to the string horizontal bar; the
renderer then hits the default branch (unsupported placeholder), not the bar chart
and not the table, refuting the claim. -/
theorem chartType_substring_claim_cex :
    normalizeChartType (some "Horizontal Bar") = "horizontal bar"
    ∧ "horizontal bar" ≠ "bar"
    ∧ Visualization (chatProps (normalizeChartType (some "Horizontal Bar"))
        [[("a", JValue.str "x"), ("b", JValue.num 1)]]) = .unsupported := by
  decide

/-- C1 amended: chart-type handling lower-cases the string and an absent or empty
chart_type resolves to table; dispatch then matches the lower-cased string exactly
against bar, line, pie and table, so BAR resolves to the bar branch while any other
string such as Horizontal Bar renders the unsupported placeholder, not a table. -/
theorem chartType_exact_dispatch (s : String) (r : Rec) (t : List Rec) (d : List Rec)
    (hd : d = r :: t) :
    normalizeChartType none = "table"
    ∧ normalizeChartType (some s) = (if jsToLower s == "" then "table" else jsToLower s)
    ∧ Visualization (chatProps (normalizeChartType (some "BAR")) d)
        = .barChart ((recordKeys r).get? 0) ((recordKeys r).get? 1) d
    ∧ Visualization (chatProps (normalizeChartType none) d) = .tableView (recordKeys r) d
    ∧ Visualization (chatProps (normalizeChartType (some "Horizontal Bar")) d) = .unsupported := by
  subst hd
  exact ⟨rfl, rfl, rfl, rfl, rfl⟩

/-- Witness for the amended C1 theorem at concrete input. -/
theorem chartType_exact_dispatch_witness :
    normalizeChartType none = "table"
    ∧ normalizeChartType (some "Pie") = (if jsToLower "Pie" == "" then "table" else jsToLower "Pie")
    ∧ Visualization (chatProps (normalizeChartType (some "BAR")) [[("category", JValue.str "A")]])
        = .barChart ((recordKeys [("category", JValue.str "A")]).get? 0)
            ((recordKeys [("category", JValue.str "A")]).get? 1) [[("category", JValue.str "A")]]
    ∧ Visualization (chatProps (normalizeChartType none) [[("category", JValue.str "A")]])
        = .tableView (recordKeys [("category", JValue.str "A")]) [[("category", JValue.str "A")]]
    ∧ Visualization (chatProps (normalizeChartType (some "Horizontal Bar"))
        [[("category", JValue.str "A")]]) = .unsupported :=
  chartType_exact_dispatch "Pie" [("category", JValue.str "A")] [] [[("category", JValue.str "A")]] rfl

/-- C2 counterexample: with data keys a, b, c and a suggestion supplying y_axis c,
the chat pipeline resolves the y key to b (the second key), not to the intersection
of the supplied names with the present keys; and with data whose values are all
strings and no numeric row at all, the y key still resolves to the second key q,
refuting the numeric-scan fallback as well. -/
theorem y_key_intersection_claim_cex :
    chatRender { natural_language_answer := ""
                 query_result_data := some [[("a", JValue.str "x"), ("b", JValue.num 1), ("c", JValue.num 2)]]
                 visualization_suggestion := some { chart_type := some "bar", x_axis := some "a", y_axis := some "c" } }
      = some (.barChart (some "a") (some "b") [[("a", JValue.str "x"), ("b", JValue.num 1), ("c", JValue.num 2)]])
    ∧ (some "b" : Option String) ≠ some "c"
    ∧ (resolveKeys (chatProps "bar" [[("p", JValue.str "x"), ("q", JValue.str "y")]])).2.1 = some "q" := by
  decide

/-- C2 amended: the resolved y key is the yAxisKey prop when truthy, otherwise the
second key of the first record; the suggestion is never consulted, no intersection
with present keys and no numeric detection occurs. For the scenario data with keys
category and sales and no suggestion the y key is sales, as the second key. -/
theorem y_key_second_key_resolution (p : VisualizationProps) (r : Rec) (t : List Rec)
    (hd : p.data = r :: t) :
    (resolveKeys p).2.1 = jsOr p.yAxisKey ((recordKeys r).get? 1)
    ∧ (resolveKeys (chatProps "bar"
        [[("category", JValue.str "A"), ("sales", JValue.str "100")],
         [("category", JValue.str "B"), ("sales", JValue.str "bad")]])).2.1 = some "sales" := by
  constructor
  · simp [resolveKeys, inferKeys, hd]
  · decide

/-- Witness for the amended C2 theorem at concrete input. -/
theorem y_key_second_key_resolution_witness :
    (resolveKeys (chatProps "bar" [[("category", JValue.str "A"), ("sales", JValue.str "100")]])).2.1
      = jsOr none ((recordKeys [("category", JValue.str "A"), ("sales", JValue.str "100")]).get? 1)
    ∧ (resolveKeys (chatProps "bar"
        [[("category", JValue.str "A"), ("sales", JValue.str "100")],
         [("category", JValue.str "B"), ("sales", JValue.str "bad")]])).2.1 = some "sales" :=
  y_key_second_key_resolution (chatProps "bar" [[("category", JValue.str "A"), ("sales", JValue.str "100")]])
    [("category", JValue.str "A"), ("sales", JValue.str "100")] [] rfl

/-- C3 counterexample: for data whose first key n holds a number and whose second
key s holds a string, with no suggestion, the code resolves the x key to n, the
first key in record order, while the claim predicts the first textual key s. -/
theorem x_key_textual_claim_cex :
    (resolveKeys (chatProps "bar" [[("n", JValue.num 5), ("s", JValue.str "a")]])).1 = some "n"
    ∧ specFirstTextualKey [("n", JValue.num 5), ("s", JValue.str "a")] = some "s"
    ∧ (some "n" : Option String) ≠ some "s" := by
  decide

/-- C3 amended: the resolved x key is the xAxisKey prop when truthy, otherwise the
first key of the first record regardless of whether its value is textual; the chat
flow passes no xAxisKey prop, so the backend x_axis never applies and the x key is
always the first record key there. -/
theorem x_key_first_key_resolution (p : VisualizationProps) (r : Rec) (t : List Rec)
    (ans : String) (sug : Suggestion) (v : VizSpec)
    (hd : p.data = r :: t)
    (hv : responseViz { natural_language_answer := ans, query_result_data := some (r :: t),
                        visualization_suggestion := some sug } = some v) :
    (resolveKeys p).1 = jsOr p.xAxisKey ((recordKeys r).get? 0)
    ∧ (resolveKeys (chatVisualizationProps v)).1 = (recordKeys r).get? 0 := by
  simp only [responseViz, Option.some.injEq] at hv
  subst hv
  constructor
  · simp [resolveKeys, inferKeys, hd]
  · simp [resolveKeys, inferKeys, chatVisualizationProps, jsOr, truthyOptStr]

/-- Witness for the amended C3 theorem at concrete input. -/
theorem x_key_first_key_resolution_witness :
    (resolveKeys (chatProps "bar" [[("n", JValue.num 5), ("s", JValue.str "a")]])).1
      = jsOr none ((recordKeys [("n", JValue.num 5), ("s", JValue.str "a")]).get? 0)
    ∧ (resolveKeys (chatVisualizationProps
        { vtype := "bar", data := [[("n", JValue.num 5), ("s", JValue.str "a")]],
          suggestion := suggestionText { chart_type := some "bar", x_axis := some "zzz", y_axis := none },
          xAxisKey := none, yAxisKey := none, pieKey := none, pieNameKey := none })).1
      = (recordKeys [("n", JValue.num 5), ("s", JValue.str "a")]).get? 0 :=
  x_key_first_key_resolution (chatProps "bar" [[("n", JValue.num 5), ("s", JValue.str "a")]])
    [("n", JValue.num 5), ("s", JValue.str "a")] [] "answer"
    { chart_type := some "bar", x_axis := some "zzz", y_axis := none }
    { vtype := "bar", data := [[("n", JValue.num 5), ("s", JValue.str "a")]],
      suggestion := suggestionText { chart_type := some "bar", x_axis := some "zzz", y_axis := none },
      xAxisKey := none, yAxisKey := none, pieKey := none, pieNameKey := none }
    rfl (by decide)

/-- C4 counterexample: the scenario data reaches the bar renderer verbatim; the
unparseable string bad is still the string bad, not a null marker, and the numeric
string 100 is not parsed into a number, refuting the claimed coercion. -/
theorem value_coercion_claim_cex :
    Visualization (chatProps "bar"
        [[("category", JValue.str "A"), ("sales", JValue.str "100")],
         [("category", JValue.str "B"), ("sales", JValue.str "bad")]])
      = .barChart (some "category") (some "sales")
          [[("category", JValue.str "A"), ("sales", JValue.str "100")],
           [("category", JValue.str "B"), ("sales", JValue.str "bad")]]
    ∧ lookupField [("category", JValue.str "B"), ("sales", JValue.str "bad")] "sales"
        = some (JValue.str "bad")
    ∧ JValue.str "bad" ≠ JValue.null
    ∧ JValue.str "100" ≠ JValue.num 100 := by
  decide

/-- C4 amended: no value coercion exists anywhere in the flow; every rendering
branch receives exactly the input rows unchanged (and rendering, being a total
function, never throws on any input value). -/
theorem render_preserves_data (p : VisualizationProps) :
    Visualization p = .noData ∨ Visualization p = .unsupported
    ∨ (∃ x y, Visualization p = .barChart x y p.data
          ∨ Visualization p = .lineChart x y p.data
          ∨ Visualization p = .pieChart x y p.data)
    ∨ (∃ cols, Visualization p = .tableView cols p.data) := by
  unfold Visualization
  split
  · exact Or.inl rfl
  · split
    · exact Or.inr (Or.inr (Or.inl ⟨_, _, Or.inl rfl⟩))
    · exact Or.inr (Or.inr (Or.inl ⟨_, _, Or.inr (Or.inl rfl)⟩))
    · exact Or.inr (Or.inr (Or.inl ⟨_, _, Or.inr (Or.inr rfl)⟩))
    · exact Or.inr (Or.inr (Or.inr ⟨_, rfl⟩))
    · exact Or.inr (Or.inl rfl)

/-- C5 counterexample: for the scenario suggestion (Pie with x_axis region and
y_axis total) the chat pipeline renders a pie whose value key is region and whose
name key is total, the exact opposite of the claimed assignment, because the chat
flow passes no pie props and the renderer falls back to first and second key. -/
theorem pie_key_claim_cex :
    chatRender { natural_language_answer := ""
                 query_result_data := some [[("region", JValue.str "North"), ("total", JValue.num 5)]]
                 visualization_suggestion := some { chart_type := some "Pie", x_axis := some "region",
                                                    y_axis := some "total" } }
      = some (.pieChart (some "region") (some "total")
          [[("region", JValue.str "North"), ("total", JValue.num 5)]])
    ∧ ("region" : String) ≠ "total" := by
  decide

/-- C5 amended: the pie renderer uses the first record key as the value field and
the second record key as the slice-label field (the reverse of the claim, since the
chat flow passes no pie props); each slice label rounds the percent prop to a whole
percent, within one half of a percent of the exact share. -/
theorem pie_key_assignment (r : Rec) (t : List Rec) (ans : String) (sug : Suggestion)
    (v : VizSpec) (q : ℚ)
    (hct : normalizeChartType sug.chart_type = "pie")
    (hv : responseViz { natural_language_answer := ans, query_result_data := some (r :: t),
                        visualization_suggestion := some sug } = some v) :
    renderMessageViz v = .pieChart ((recordKeys r).get? 0) ((recordKeys r).get? 1) (r :: t)
    ∧ |q * 100 - (jsMathRound (q * 100) : ℚ)| ≤ 1/2 := by
  simp only [responseViz, Option.some.injEq] at hv
  subst hv
  constructor
  · simp [renderMessageViz, chatVisualizationProps, Visualization, resolveKeys, inferKeys,
          jsOr, truthyOptStr, hct]
  · have h1 := Int.floor_le (q * 100 + 1/2)
    have h2 := Int.lt_floor_add_one (q * 100 + 1/2)
    rw [abs_le]
    unfold jsMathRound
    constructor <;> push_cast at h1 h2 ⊢ <;> linarith

/-- Witness for the amended C5 theorem at concrete input. -/
theorem pie_key_assignment_witness :
    renderMessageViz
        { vtype := "pie", data := [[("region", JValue.str "North"), ("total", JValue.num 5)]],
          suggestion := suggestionText { chart_type := some "Pie", x_axis := some "region",
                                         y_axis := some "total" },
          xAxisKey := none, yAxisKey := none, pieKey := none, pieNameKey := none }
      = .pieChart ((recordKeys [("region", JValue.str "North"), ("total", JValue.num 5)]).get? 0)
          ((recordKeys [("region", JValue.str "North"), ("total", JValue.num 5)]).get? 1)
          [[("region", JValue.str "North"), ("total", JValue.num 5)]]
    ∧ |(1/3 : ℚ) * 100 - (jsMathRound ((1/3 : ℚ) * 100) : ℚ)| ≤ 1/2 :=
  pie_key_assignment [("region", JValue.str "North"), ("total", JValue.num 5)] [] "ans"
    { chart_type := some "Pie", x_axis := some "region", y_axis := some "total" }
    { vtype := "pie", data := [[("region", JValue.str "North"), ("total", JValue.num 5)]],
      suggestion := suggestionText { chart_type := some "Pie", x_axis := some "region",
                                     y_axis := some "total" },
      xAxisKey := none, yAxisKey := none, pieKey := none, pieNameKey := none }
    (1/3) (by decide) (by decide)

/-- C6: whenever the busy flag is set, or the trimmed question is empty, or no
upload id is active (absent or empty), handleSubmit is a no-op: the state and the
local input are unchanged and no request is issued, so the message log length is
unchanged and at most one query is outstanding at a time. -/
theorem submit_noop_when_busy (ctx : State) (input : String) (o : QueryOutcome) (n1 n2 : Nat)
    (h : jsTrim input = "" ∨ truthyOptStr ctx.uploadId = false ∨ ctx.isProcessing = true) :
    handleSubmit ctx input o n1 n2 = { ctx := ctx, inputValue := input, requestIssued := false } := by
  have hb : (jsTrim input == "" || !truthyOptStr ctx.uploadId || ctx.isProcessing) = true := by
    rcases h with h | h | h <;> simp [h]
  simp [handleSubmit, hb]

/-- Witness for the C6 theorem at concrete input: busy flag set. -/
theorem submit_noop_when_busy_witness :
    handleSubmit { appState := .chat, uploadId := some "u1", messages := [], isProcessing := true }
        "hello" .err 0 1
      = { ctx := { appState := .chat, uploadId := some "u1", messages := [], isProcessing := true },
          inputValue := "hello", requestIssued := false } :=
  submit_noop_when_busy
    { appState := .chat, uploadId := some "u1", messages := [], isProcessing := true }
    "hello" .err 0 1 (Or.inr (Or.inr rfl))

/-- C7 counterexample: a successful upload response whose body carries no upload_id
leaves the screen in loading, it does not revert to upload as the claim states for
a malformed response body. -/
theorem upload_malformed_body_cex :
    (onDrop initialState ["data.xlsx"] (.ok none)).appState = .loading
    ∧ AppState.loading ≠ AppState.upload := by
  decide

/-- C7 amended: on a thrown failure (network error or non-2xx) the screen reverts
from loading to upload with no retry; on success with a truthy session identifier
the identifier is stored and the screen transitions to chat; but a 2xx response
whose body lacks a truthy identifier leaves the screen stuck in loading. -/
theorem upload_flow_transitions (s : State) (f : String) (fs : List String)
    (uid : String) (huid : uid ≠ "") :
    onDrop s [] .err = s
    ∧ (onDrop s (f :: fs) .err).appState = .upload
    ∧ (onDrop s (f :: fs) (.ok (some uid))).appState = .chat
    ∧ (onDrop s (f :: fs) (.ok (some uid))).uploadId = some uid
    ∧ (onDrop s (f :: fs) (.ok none)).appState = .loading
    ∧ (onDrop s (f :: fs) (.ok (some ""))).appState = .loading := by
  refine ⟨rfl, rfl, ?_, ?_, rfl, rfl⟩ <;>
    simp [onDrop, appReducer, truthyOptStr, huid]

/-- Witness for the amended C7 theorem at concrete input. -/
theorem upload_flow_transitions_witness :
    onDrop initialState [] .err = initialState
    ∧ (onDrop initialState ["data.xlsx"] .err).appState = .upload
    ∧ (onDrop initialState ["data.xlsx"] (.ok (some "abc123"))).appState = .chat
    ∧ (onDrop initialState ["data.xlsx"] (.ok (some "abc123"))).uploadId = some "abc123"
    ∧ (onDrop initialState ["data.xlsx"] (.ok none)).appState = .loading
    ∧ (onDrop initialState ["data.xlsx"] (.ok (some ""))).appState = .loading :=
  upload_flow_transitions initialState "data.xlsx" [] "abc123" (by decide)

/-- C8: when the guard passes and the query request fails, exactly the user message
and one generic apology AI message are appended (so the AI message count rises by
exactly one and the log stays usable), and for every outcome of an issued query the
busy flag ends cleared, so a failure never leaves it set. -/
theorem query_failure_apology (ctx : State) (input : String) (o : QueryOutcome) (n1 n2 : Nat)
    (h : (jsTrim input == "" || !truthyOptStr ctx.uploadId || ctx.isProcessing) = false) :
    (handleSubmit ctx input .err n1 n2).ctx.messages
      = ctx.messages
        ++ [payloadToMessage n1 { type := "user", content := jsTrim input, visualization := none },
            payloadToMessage n2 { type := "ai", content := apologyText, visualization := none }]
    ∧ ((handleSubmit ctx input .err n1 n2).ctx.messages.filter fun m => m.type == "ai").length
        = (ctx.messages.filter fun m => m.type == "ai").length + 1
    ∧ (handleSubmit ctx input o n1 n2).ctx.isProcessing = false
    ∧ (handleSubmit ctx input o n1 n2).requestIssued = true := by
  refine ⟨?_, ?_, ?_, ?_⟩
  · simp [handleSubmit, h, appReducer, payloadToMessage]
  · simp [handleSubmit, h, appReducer, payloadToMessage, List.filter_append]
  · cases o <;> simp [handleSubmit, h, appReducer]
  · cases o <;> simp [handleSubmit, h]

/-- Witness for the C8 theorem at concrete input. -/
theorem query_failure_apology_witness :
    (handleSubmit { appState := .chat, uploadId := some "u1", messages := [], isProcessing := false }
        "hi" .err 0 1).ctx.messages
      = ([] : List Message)
        ++ [payloadToMessage 0 { type := "user", content := jsTrim "hi", visualization := none },
            payloadToMessage 1 { type := "ai", content := apologyText, visualization := none }]
    ∧ ((handleSubmit { appState := .chat, uploadId := some "u1", messages := [], isProcessing := false }
        "hi" .err 0 1).ctx.messages.filter fun m => m.type == "ai").length
        = (([] : List Message).filter fun m => m.type == "ai").length + 1
    ∧ (handleSubmit { appState := .chat, uploadId := some "u1", messages := [], isProcessing := false }
        "hi" .err 0 1).ctx.isProcessing = false
    ∧ (handleSubmit { appState := .chat, uploadId := some "u1", messages := [], isProcessing := false }
        "hi" .err 0 1).requestIssued = true :=
  query_failure_apology
    { appState := .chat, uploadId := some "u1", messages := [], isProcessing := false }
    "hi" .err 0 1 (by decide)

/-- C9: every reducer action either leaves the message list unchanged, appends
exactly one message at the end (preserving the ordered prefix), or is the explicit
clear action; the clear action empties the list; and the only action that can turn
a non-empty list into an empty one is the explicit clear action. -/
theorem reducer_message_log_invariant (now : Nat) (s : State) (a : Action) :
    ((appReducer now s a).messages = s.messages
      ∨ (∃ m, (appReducer now s a).messages = s.messages ++ [m])
      ∨ a = .clearMessagesAct)
    ∧ (a = .clearMessagesAct → (appReducer now s a).messages = [])
    ∧ (s.messages ≠ [] → (appReducer now s a).messages = [] → a = .clearMessagesAct) := by
  cases a <;> simp [appReducer]

/-- Witness for the C9 theorem at concrete input. -/
theorem reducer_message_log_invariant_witness :
    ((appReducer 5 initialState .clearMessagesAct).messages = initialState.messages
      ∨ (∃ m, (appReducer 5 initialState .clearMessagesAct).messages = initialState.messages ++ [m])
      ∨ Action.clearMessagesAct = .clearMessagesAct)
    ∧ (Action.clearMessagesAct = .clearMessagesAct →
        (appReducer 5 initialState .clearMessagesAct).messages = [])
    ∧ (initialState.messages ≠ [] →
        (appReducer 5 initialState .clearMessagesAct).messages = [] →
        Action.clearMessagesAct = .clearMessagesAct) :=
  reducer_message_log_invariant 5 initialState .clearMessagesAct

/-- C10: the backend x_axis and y_axis fields never influence the record keys the
rendered chart uses: the chat flow builds the message visualization with no axis
key fields, passes no key props to the renderer, and for two responses over the
same data whose suggestions share a chart_type the render results coincide, with
all four resolved keys determined solely by the first and second key of the first
data record. -/
theorem suggestion_axes_no_influence (r : Rec) (t : List Rec) (ans1 ans2 : String)
    (sug1 sug2 : Suggestion) (v1 v2 : VizSpec)
    (hct : sug1.chart_type = sug2.chart_type)
    (h1 : responseViz { natural_language_answer := ans1
                        query_result_data := some (r :: t)
                        visualization_suggestion := some sug1 } = some v1)
    (h2 : responseViz { natural_language_answer := ans2
                        query_result_data := some (r :: t)
                        visualization_suggestion := some sug2 } = some v2) :
    v1.xAxisKey = none ∧ v1.yAxisKey = none ∧ v1.pieKey = none ∧ v1.pieNameKey = none
    ∧ renderMessageViz v1 = renderMessageViz v2
    ∧ resolveKeys (chatVisualizationProps v1)
        = ((recordKeys r).get? 0, (recordKeys r).get? 1, (recordKeys r).get? 0,
           (recordKeys r).get? 1) := by
  simp only [responseViz, Option.some.injEq] at h1 h2
  subst h1
  subst h2
  refine ⟨rfl, rfl, rfl, rfl, ?_, ?_⟩
  · rw [hct]
    rfl
  · simp [resolveKeys, inferKeys, chatVisualizationProps, jsOr, truthyOptStr]

/-- Witness for the C10 theorem at concrete input: two suggestions sharing a
chart_type but with different axis fields. -/
theorem suggestion_axes_no_influence_witness :
    ({ vtype := "bar", data := [[("k1", JValue.str "v"), ("k2", JValue.num 1)]],
       suggestion := suggestionText { chart_type := some "bar", x_axis := some "a", y_axis := some "b" },
       xAxisKey := none, yAxisKey := none, pieKey := none, pieNameKey := none } : VizSpec).xAxisKey = none
    ∧ ({ vtype := "bar", data := [[("k1", JValue.str "v"), ("k2", JValue.num 1)]],
         suggestion := suggestionText { chart_type := some "bar", x_axis := some "a", y_axis := some "b" },
         xAxisKey := none, yAxisKey := none, pieKey := none, pieNameKey := none } : VizSpec).yAxisKey = none
    ∧ ({ vtype := "bar", data := [[("k1", JValue.str "v"), ("k2", JValue.num 1)]],
         suggestion := suggestionText { chart_type := some "bar", x_axis := some "a", y_axis := some "b" },
         xAxisKey := none, yAxisKey := none, pieKey := none, pieNameKey := none } : VizSpec).pieKey = none
    ∧ ({ vtype := "bar", data := [[("k1", JValue.str "v"), ("k2", JValue.num 1)]],
         suggestion := suggestionText { chart_type := some "bar", x_axis := some "a", y_axis := some "b" },
         xAxisKey := none, yAxisKey := none, pieKey := none, pieNameKey := none } : VizSpec).pieNameKey = none
    ∧ renderMessageViz
        { vtype := "bar", data := [[("k1", JValue.str "v"), ("k2", JValue.num 1)]],
          suggestion := suggestionText { chart_type := some "bar", x_axis := some "a", y_axis := some "b" },
          xAxisKey := none, yAxisKey := none, pieKey := none, pieNameKey := none }
      = renderMessageViz
        { vtype := "bar", data := [[("k1", JValue.str "v"), ("k2", JValue.num 1)]],
          suggestion := suggestionText { chart_type := some "bar", x_axis := some "zzz", y_axis := none },
          xAxisKey := none, yAxisKey := none, pieKey := none, pieNameKey := none }
    ∧ resolveKeys (chatVisualizationProps
        { vtype := "bar", data := [[("k1", JValue.str "v"), ("k2", JValue.num 1)]],
          suggestion := suggestionText { chart_type := some "bar", x_axis := some "a", y_axis := some "b" },
          xAxisKey := none, yAxisKey := none, pieKey := none, pieNameKey := none })
        = ((recordKeys [("k1", JValue.str "v"), ("k2", JValue.num 1)]).get? 0,
           (recordKeys [("k1", JValue.str "v"), ("k2", JValue.num 1)]).get? 1,
           (recordKeys [("k1", JValue.str "v"), ("k2", JValue.num 1)]).get? 0,
           (recordKeys [("k1", JValue.str "v"), ("k2", JValue.num 1)]).get? 1) :=
  suggestion_axes_no_influence [("k1", JValue.str "v"), ("k2", JValue.num 1)] [] "a1" "a2"
    { chart_type := some "bar", x_axis := some "a", y_axis := some "b" }
    { chart_type := some "bar", x_axis := some "zzz", y_axis := none }
    { vtype := "bar", data := [[("k1", JValue.str "v"), ("k2", JValue.num 1)]],
      suggestion := suggestionText { chart_type := some "bar", x_axis := some "a", y_axis := some "b" },
      xAxisKey := none, yAxisKey := none, pieKey := none, pieNameKey := none }
    { vtype := "bar", data := [[("k1", JValue.str "v"), ("k2", JValue.num 1)]],
      suggestion := suggestionText { chart_type := some "bar", x_axis := some "zzz", y_axis := none },
      xAxisKey := none, yAxisKey := none, pieKey := none, pieNameKey := none }
    rfl (by decide) (by decide)

end AIDataAgent
